import Mathlib

/-!
Verification of the state-container examples of the repository.

The data model and operations below are shallow embeddings of the
TypeScript sources:

* `AuthTypes.ts` (src/unnamed/part_001): `User`, the `AuthAction`
  discriminated union;
* the `useReducer` variant (src/unnamed/part_004): `initialState`,
  `authReducer`;
* the `useState` variant (src/unnamed/part_009): `AuthProvider.login`
  and `AuthProvider.logout`, each performing two setter calls that
  commit together in one render;
* the Zustand variant (src/clients/STORE.md, `authStore.ts`):
  `useAuthStore.login` and `useAuthStore.logout`, each a single
  `set` call updating both fields;
* the checkout form schema (src/forms/checkout/src/types/checkout.ts).
-/

/-- `User` from `AuthTypes.ts`: `{ id: string; name: string; email: string }`.
The spec calls this the identity record, with `name` as the display name
and `email` as the contact address. -/
structure User where
  id : String
  name : String
  email : String
deriving DecidableEq, Repr

/-- `AuthState` from the reducer example: `{ isLoggedIn: boolean; user: User | null }`.
The same shape backs all three variants (the spec's `Session`:
`authenticated` is `isLoggedIn`, `identity` is `user`). -/
structure AuthState where
  isLoggedIn : Bool
  user : Option User
deriving DecidableEq, Repr

/-- `initialState` from the reducer example: `{ isLoggedIn: false, user: null }`. -/
def initialState : AuthState := { isLoggedIn := false, user := none }

/-- `AuthAction` from `AuthTypes.ts`, the discriminated union
`LoginAction | LogoutAction`.  At the JavaScript runtime any `type`
string can reach the reducer, so the embedding keeps an `other`
constructor carrying the unrecognized tag; it is what the reducer's
`default` branch matches. -/
inductive AuthAction where
  | login (payload : User)
  | logout
  | other (tag : String)
deriving DecidableEq, Repr

/-- `authReducer` from the `useReducer` example:
`case "LOGIN"` returns `{ ...state, isLoggedIn: true, user: action.payload }`,
`case "LOGOUT"` returns `{ ...state, isLoggedIn: false, user: null }`,
and the `default` branch returns `state` unchanged. -/
def authReducer (state : AuthState) (action : AuthAction) : AuthState :=
  match action with
  | .login payload => { state with isLoggedIn := true, user := some payload }
  | .logout => { state with isLoggedIn := false, user := none }
  | .other _ => state

/-- The error taxonomy named by the spec (§7).  The reducer source never
raises any of these; the `Except` wrapper below records that fact. -/
inductive DispatchError where
  | invalidTransitionRequest
  | unknownTransitionKind
  | reentrantDispatch
deriving DecidableEq, Repr

/-- The observable result of a `dispatch` call in the reducer variant.
The source reducer contains no `throw` and no validation on any path, so
every call returns normally with `authReducer state action`; the
`Except` codomain exists to let error-reporting claims be stated. -/
def dispatchResult (state : AuthState) (action : AuthAction) :
    Except DispatchError AuthState :=
  Except.ok (authReducer state action)

/-- `AuthProvider.login` of the `useState` variant:
`setIsLoggedIn(true); setUser(userData)` — both fields of the committed
state are updated. -/
def useStateLogin (state : AuthState) (userData : User) : AuthState :=
  { state with isLoggedIn := true, user := some userData }

/-- `AuthProvider.logout` of the `useState` variant:
`setIsLoggedIn(false); setUser(null)`. -/
def useStateLogout (state : AuthState) : AuthState :=
  { state with isLoggedIn := false, user := none }

/-- `useAuthStore.login` of the Zustand variant:
`set({ isLoggedIn: true, user: userData })`, merged into the store state. -/
def storeLogin (state : AuthState) (userData : User) : AuthState :=
  { state with isLoggedIn := true, user := some userData }

/-- `useAuthStore.logout` of the Zustand variant:
`set({ isLoggedIn: false, user: null })`. -/
def storeLogout (state : AuthState) : AuthState :=
  { state with isLoggedIn := false, user := none }

/-- The spec's structural validity of an identity record: non-empty id
and non-empty display name. -/
def validIdentity (u : User) : Prop := u.id ≠ "" ∧ u.name ≠ ""

instance (u : User) : Decidable (validIdentity u) :=
  inferInstanceAs (Decidable (_ ∧ _))

/-- The spec's Session invariant: `identity` non-null iff `authenticated`. -/
def sessionInvariant (s : AuthState) : Prop :=
  s.user ≠ none ↔ s.isLoggedIn = true

instance (s : AuthState) : Decidable (sessionInvariant s) :=
  inferInstanceAs (Decidable (_ ↔ _))

/-- Running a sequence of dispatched requests through the reducer. -/
def runActions (s : AuthState) (acts : List AuthAction) : AuthState :=
  acts.foldl authReducer s

/-- C1: dispatching establish with a valid identity record `d` makes the
state `{authenticated: true, identity: d}` in both the reducer variant
and the store variant. -/
theorem establish_sets_identity (s : AuthState) (d : User)
    (hd : validIdentity d) :
    authReducer s (.login d) = { isLoggedIn := true, user := some d } ∧
    storeLogin s d = { isLoggedIn := true, user := some d } := by
  exact ⟨rfl, rfl⟩

theorem establish_sets_identity_witness :
    validIdentity ⟨"1", "Guest", "guest@example.com"⟩ ∧
    (authReducer initialState (.login ⟨"1", "Guest", "guest@example.com"⟩) =
        { isLoggedIn := true, user := some ⟨"1", "Guest", "guest@example.com"⟩ } ∧
      storeLogin initialState ⟨"1", "Guest", "guest@example.com"⟩ =
        { isLoggedIn := true, user := some ⟨"1", "Guest", "guest@example.com"⟩ }) :=
  ⟨by decide,
    establish_sets_identity initialState ⟨"1", "Guest", "guest@example.com"⟩ (by decide)⟩

/-- C2: dispatching clear from any state yields
`{authenticated: false, identity: null}` in the reducer and store
variants, and repeating clear gives the same result (idempotent). -/
theorem clear_resets_state (s : AuthState) :
    authReducer s .logout = { isLoggedIn := false, user := none } ∧
    storeLogout s = { isLoggedIn := false, user := none } ∧
    authReducer (authReducer s .logout) .logout = authReducer s .logout := by
  exact ⟨rfl, rfl, rfl⟩

theorem clear_resets_state_witness :
    authReducer initialState .logout = { isLoggedIn := false, user := none } ∧
    storeLogout initialState = { isLoggedIn := false, user := none } ∧
    authReducer (authReducer initialState .logout) .logout =
      authReducer initialState .logout :=
  clear_resets_state initialState

/-- C3: in every state reachable from `initialState` by any sequence of
dispatched requests, `identity` is non-null iff `authenticated` is true. -/
theorem reachable_session_invariant (acts : List AuthAction) :
    sessionInvariant (runActions initialState acts) := by
  suffices h : ∀ s : AuthState, sessionInvariant s →
      sessionInvariant (runActions s acts) from h initialState (by decide)
  induction acts with
  | nil => intro s hs; exact hs
  | cons a rest ih =>
    intro s hs
    refine ih (authReducer s a) ?_
    cases a with
    | login payload => simp [authReducer, sessionInvariant]
    | logout => simp [authReducer, sessionInvariant]
    | other tag => exact hs

/-- C4 counterexample: dispatching establish with the structurally
invalid detail `{id:"", displayName:"", contactAddress:""}` from the
initial state is not rejected: no error is reported and the state
changes to `{authenticated: true, identity: that detail}`. -/
theorem invalid_establish_not_rejected :
    dispatchResult initialState (.login ⟨"", "", ""⟩) =
      Except.ok { isLoggedIn := true, user := some ⟨"", "", ""⟩ } ∧
    authReducer initialState (.login ⟨"", "", ""⟩) ≠ initialState := by
  exact ⟨rfl, by decide⟩

/-- C4 amended: an establish request is applied whether or not its
detail is structurally valid — no variant validates the payload, no
error is raised, and the state always becomes
`{authenticated: true, identity: detail}`. -/
theorem establish_applies_any_detail (s : AuthState) (d : User) :
    dispatchResult s (.login d) =
      Except.ok { isLoggedIn := true, user := some d } ∧
    useStateLogin s d = { isLoggedIn := true, user := some d } ∧
    storeLogin s d = { isLoggedIn := true, user := some d } := by
  exact ⟨rfl, rfl, rfl⟩

/-- C5 counterexample: dispatching a request of unknown kind (tag
`"FOO"`) returns normally with the state unchanged; no
`UnknownTransitionKind` error is reported to the caller. -/
theorem unknown_kind_no_error :
    dispatchResult initialState (.other "FOO") = Except.ok initialState ∧
    ∀ e : DispatchError,
      dispatchResult initialState (.other "FOO") ≠ Except.error e := by
  exact ⟨rfl, fun e h => by cases h⟩

/-- C5 amended: dispatching a request whose kind is neither establish
nor clear leaves the state unchanged and reports no error: the reducer's
default branch silently returns the current state. -/
theorem unknown_kind_silent_noop (s : AuthState) (tag : String) :
    dispatchResult s (.other tag) = Except.ok s := by
  exact rfl

/-- C6: no transition partially applies — every dispatched request
either leaves the state exactly as it was, or replaces both fields
together with values determined by the request alone (`{true, some d}`
for establish, `{false, null}` for clear); the same holds for the
useState and store variants. -/
theorem transitions_atomic (s : AuthState) (a : AuthAction) :
    (authReducer s a = s ∨
      (∃ d, authReducer s a = { isLoggedIn := true, user := some d }) ∨
      authReducer s a = { isLoggedIn := false, user := none }) ∧
    (∀ d, useStateLogin s d = { isLoggedIn := true, user := some d }) ∧
    useStateLogout s = { isLoggedIn := false, user := none } ∧
    (∀ d, storeLogin s d = { isLoggedIn := true, user := some d }) ∧
    storeLogout s = { isLoggedIn := false, user := none } := by
  refine ⟨?_, fun d => rfl, rfl, fun d => rfl, rfl⟩
  cases a with
  | login payload => exact Or.inr (Or.inl ⟨payload, rfl⟩)
  | logout => exact Or.inr (Or.inr rfl)
  | other tag => exact Or.inl rfl

/-- C7: from any state `s` and any valid identity record `d`, dispatching
clear, then establish with `d`, then clear again leaves the container in
exactly the initial state. -/
theorem clear_establish_clear_roundtrip (s : AuthState) (d : User)
    (hd : validIdentity d) :
    authReducer (authReducer (authReducer s .logout) (.login d)) .logout =
      initialState := by
  exact rfl

theorem clear_establish_clear_roundtrip_witness :
    validIdentity ⟨"1", "Guest", "guest@example.com"⟩ ∧
    authReducer
        (authReducer (authReducer initialState .logout)
          (.login ⟨"1", "Guest", "guest@example.com"⟩)) .logout =
      initialState :=
  ⟨by decide,
    clear_establish_clear_roundtrip initialState
      ⟨"1", "Guest", "guest@example.com"⟩ (by decide)⟩

/-- C8: the three variants compute observably identical transitions: for
every state and every user record, the useState provider's login/logout,
the reducer's LOGIN/LOGOUT cases, and the Zustand store's login/logout
produce equal resulting states. -/
theorem three_variants_agree (s : AuthState) (d : User) :
    useStateLogin s d = authReducer s (.login d) ∧
    useStateLogin s d = storeLogin s d ∧
    useStateLogout s = authReducer s .logout ∧
    useStateLogout s = storeLogout s := by
  exact ⟨rfl, rfl, rfl, rfl⟩

/-- Modelled from the spec: the subscription machinery of §4.1
(`subscribe` / listener notification) has no implementation under the
sources — the React variants rely on React's internal re-render
scheduling and the Zustand variant on library code outside this
repository.  A registered listener is identified by the fresh handle
`subscribe` returned for it; `unsubs` is the set of handles whose
unsubscribe capability the callback invokes when it runs during a
notification pass. -/
structure Listener where
  id : Nat
  unsubs : List Nat
deriving DecidableEq, Repr

/-- Modelled from the spec: one notification pass over the registration
list.  Listeners are visited in registration order; a listener still
subscribed (its id in `active`) is invoked — its id is appended to the
log and the ids it unsubscribes are removed from `active` — while a
listener already unsubscribed is skipped. -/
def notifyGo : List Listener → List Nat → List Nat
  | [], _ => []
  | l :: rest, active =>
    if l.id ∈ active then
      l.id :: notifyGo rest (active.filter (fun x => decide (x ∉ l.unsubs)))
    else
      notifyGo rest active

/-- Modelled from the spec: the subscription set remaining after the
notification pass has visited a prefix of the registration list. -/
def activeAfter : List Listener → List Nat → List Nat
  | [], active => active
  | l :: rest, active =>
    if l.id ∈ active then
      activeAfter rest (active.filter (fun x => decide (x ∉ l.unsubs)))
    else
      activeAfter rest active

/-- Modelled from the spec: the ids invoked, in order, when one committed
transition notifies the listeners registered before the dispatch;
notification runs synchronously inside `dispatch`, so this log is
complete when `dispatch` returns. -/
def invokedLog (regs : List Listener) : List Nat :=
  notifyGo regs (regs.map Listener.id)

theorem notifyGo_sublist (ls : List Listener) (active : List Nat) :
    (notifyGo ls active).Sublist (ls.map Listener.id) := by
  induction ls generalizing active with
  | nil => simp [notifyGo]
  | cons l rest ih =>
    by_cases h : l.id ∈ active
    · simpa [notifyGo, h] using (ih _).cons₂ l.id
    · simpa [notifyGo, h] using (ih active).cons l.id

theorem notifyGo_subset_active (ls : List Listener) (active : List Nat) :
    ∀ x ∈ notifyGo ls active, x ∈ active := by
  induction ls generalizing active with
  | nil => intro x hx; simp [notifyGo] at hx
  | cons l rest ih =>
    intro x hx
    by_cases h : l.id ∈ active
    · simp only [notifyGo, if_pos h, List.mem_cons] at hx
      rcases hx with rfl | hx
      · exact h
      · exact (List.mem_filter.mp (ih _ x hx)).1
    · simp only [notifyGo, if_neg h] at hx
      exact ih active x hx

theorem notifyGo_mem (ls : List Listener) (active : List Nat) (l : Listener)
    (hl : l ∈ ls) (ha : l.id ∈ active)
    (hnever : ∀ m ∈ ls, l.id ∉ m.unsubs) :
    l.id ∈ notifyGo ls active := by
  induction ls generalizing active with
  | nil => simp at hl
  | cons m rest ih =>
    rcases List.mem_cons.mp hl with rfl | hl
    · simp [notifyGo, ha]
    · by_cases h : m.id ∈ active
      · simp only [notifyGo, if_pos h, List.mem_cons]
        right
        refine ih _ hl ?_ (fun m' hm' => hnever m' (List.mem_cons_of_mem m hm'))
        exact List.mem_filter.mpr
          ⟨ha, by simpa using hnever m (List.mem_cons_self m rest)⟩
      · simp only [notifyGo, if_neg h]
        exact ih active hl ha (fun m' hm' => hnever m' (List.mem_cons_of_mem m hm'))

theorem notifyGo_append (a b : List Listener) (active : List Nat) :
    notifyGo (a ++ b) active =
      notifyGo a active ++ notifyGo b (activeAfter a active) := by
  induction a generalizing active with
  | nil => simp [notifyGo, activeAfter]
  | cons l rest ih =>
    by_cases h : l.id ∈ active
    · simp [notifyGo, activeAfter, h, ih]
    · simp [notifyGo, activeAfter, h, ih]

/-- C9: with distinct registration handles, the notification log of one
committed transition is a subsequence of the registration list
(registration order, each listener at most once); a listener registered
before the dispatch that no callback unsubscribes is invoked exactly
once; and when listener `l` is invoked, the rest of the pass runs on the
subscription set with the ids `l` unsubscribed removed, so none of them
is invoked after that point in the same transition. -/
theorem subscribers_notified_in_order (regs : List Listener)
    (h : (regs.map Listener.id).Nodup) :
    (invokedLog regs).Sublist (regs.map Listener.id) ∧
    (invokedLog regs).Nodup ∧
    (∀ l ∈ regs, (∀ m ∈ regs, l.id ∉ m.unsubs) →
      (invokedLog regs).count l.id = 1) ∧
    (∀ ls₁ l ls₂, regs = ls₁ ++ l :: ls₂ →
      l.id ∈ activeAfter ls₁ (regs.map Listener.id) →
      invokedLog regs =
        notifyGo ls₁ (regs.map Listener.id) ++
          l.id :: notifyGo ls₂
            ((activeAfter ls₁ (regs.map Listener.id)).filter
              (fun x => decide (x ∉ l.unsubs))) ∧
      ∀ i ∈ l.unsubs,
        i ∉ notifyGo ls₂
          ((activeAfter ls₁ (regs.map Listener.id)).filter
            (fun x => decide (x ∉ l.unsubs)))) := by
  have hsub := notifyGo_sublist regs (regs.map Listener.id)
  have hnodup : (invokedLog regs).Nodup := h.sublist hsub
  refine ⟨hsub, hnodup, ?_, ?_⟩
  · intro l hl hnever
    refine List.count_eq_one_of_mem hnodup ?_
    exact notifyGo_mem regs _ l hl (List.mem_map.mpr ⟨l, hl, rfl⟩) hnever
  · intro ls₁ l ls₂ hregs hactive
    subst hregs
    constructor
    · rw [invokedLog, notifyGo_append]
      congr 1
      simp only [notifyGo]
      rw [if_pos hactive]
    · intro i hi hmem
      have hfi := notifyGo_subset_active _ _ i hmem
      have := (List.mem_filter.mp hfi).2
      simp [hi] at this

theorem subscribers_notified_in_order_witness :
    (([⟨0, [2]⟩, ⟨1, []⟩, ⟨2, []⟩] : List Listener).map Listener.id).Nodup ∧
    ((invokedLog [⟨0, [2]⟩, ⟨1, []⟩, ⟨2, []⟩]).Sublist
        (([⟨0, [2]⟩, ⟨1, []⟩, ⟨2, []⟩] : List Listener).map Listener.id) ∧
      (invokedLog [⟨0, [2]⟩, ⟨1, []⟩, ⟨2, []⟩]).Nodup ∧
      (∀ l ∈ ([⟨0, [2]⟩, ⟨1, []⟩, ⟨2, []⟩] : List Listener),
        (∀ m ∈ ([⟨0, [2]⟩, ⟨1, []⟩, ⟨2, []⟩] : List Listener), l.id ∉ m.unsubs) →
        (invokedLog [⟨0, [2]⟩, ⟨1, []⟩, ⟨2, []⟩]).count l.id = 1) ∧
      (∀ ls₁ l ls₂,
        ([⟨0, [2]⟩, ⟨1, []⟩, ⟨2, []⟩] : List Listener) = ls₁ ++ l :: ls₂ →
        l.id ∈ activeAfter ls₁
          (([⟨0, [2]⟩, ⟨1, []⟩, ⟨2, []⟩] : List Listener).map Listener.id) →
        invokedLog [⟨0, [2]⟩, ⟨1, []⟩, ⟨2, []⟩] =
          notifyGo ls₁
              (([⟨0, [2]⟩, ⟨1, []⟩, ⟨2, []⟩] : List Listener).map Listener.id) ++
            l.id :: notifyGo ls₂
              ((activeAfter ls₁
                  (([⟨0, [2]⟩, ⟨1, []⟩, ⟨2, []⟩] : List Listener).map
                    Listener.id)).filter
                (fun x => decide (x ∉ l.unsubs))) ∧
        ∀ i ∈ l.unsubs,
          i ∉ notifyGo ls₂
            ((activeAfter ls₁
                (([⟨0, [2]⟩, ⟨1, []⟩, ⟨2, []⟩] : List Listener).map
                  Listener.id)).filter
              (fun x => decide (x ∉ l.unsubs))))) :=
  ⟨by decide, subscribers_notified_in_order [⟨0, [2]⟩, ⟨1, []⟩, ⟨2, []⟩] (by decide)⟩

/-- The field record validated by `checkoutSchema`
(src/forms/checkout/src/types/checkout.ts): the four card fields are
`z.string().optional()`, everything else a required string. -/
structure CheckoutInput where
  fullName : String
  email : String
  phone : String
  streetAddress : String
  city : String
  zipCode : String
  country : String
  paymentMethod : String
  cardHolderName : Option String
  cardNumber : Option String
  expiryDate : Option String
  cvv : Option String
deriving DecidableEq, Repr

/-- JavaScript truthiness of an optional string field: `undefined` and
`""` are falsy, every other string truthy.  This is how the refine's
`data.cardHolderName && data.cardNumber && data.expiryDate && data.cvv`
evaluates each operand. -/
def truthy : Option String → Bool
  | none => false
  | some s => s ≠ ""

/-- The `.refine` predicate of `checkoutSchema`: when
`data.paymentMethod === "card"`, the conjunction of the truthiness of
the four card fields; otherwise `true`. -/
def cardDetailsOk (data : CheckoutInput) : Bool :=
  if data.paymentMethod == "card" then
    truthy data.cardHolderName && truthy data.cardNumber &&
      truthy data.expiryDate && truthy data.cvv
  else
    true

/-- The base object checks of `checkoutSchema`, field by field:
`min(1)` is length at least 1, `phone.min(10)` length at least 10,
`zipCode.regex(^[0-9]\x7b5\x7d$)` exactly five ASCII digits.  The
`z.string().email()` validator lives in the zod library, outside this
repository, so it is a parameter. -/
def checkoutBaseOk (emailOk : String → Bool) (data : CheckoutInput) : Bool :=
  decide (1 ≤ data.fullName.length) && emailOk data.email &&
    decide (10 ≤ data.phone.length) &&
    decide (1 ≤ data.streetAddress.length) &&
    decide (1 ≤ data.city.length) &&
    (decide (data.zipCode.length = 5) && data.zipCode.toList.all Char.isDigit) &&
    decide (1 ≤ data.country.length) &&
    decide (1 ≤ data.paymentMethod.length)

/-- `checkoutSchema.safeParse` succeeds exactly when every base field
check and the card-details refinement pass. -/
def checkoutAccepts (emailOk : String → Bool) (data : CheckoutInput) : Bool :=
  checkoutBaseOk emailOk data && cardDetailsOk data

/-- C10: an input accepted by the checkout schema with
`paymentMethod = "card"` has all four card fields present and
non-empty; and on any input whose `paymentMethod` is not `"card"`, the
card-details refinement passes unconditionally — the four optional
fields may be absent. -/
theorem checkout_card_refinement (emailOk : String → Bool)
    (d e : CheckoutInput)
    (hd : checkoutAccepts emailOk d = true)
    (he : e.paymentMethod ≠ "card") :
    (d.paymentMethod = "card" →
      truthy d.cardHolderName = true ∧ truthy d.cardNumber = true ∧
        truthy d.expiryDate = true ∧ truthy d.cvv = true) ∧
    cardDetailsOk e = true := by
  constructor
  · intro hcard
    have hrefine : cardDetailsOk d = true := by
      simp only [checkoutAccepts, Bool.and_eq_true] at hd
      exact hd.2
    rw [cardDetailsOk, if_pos (by simp [hcard])] at hrefine
    simpa [and_assoc] using hrefine
  · rw [cardDetailsOk, if_neg (by simp [he])]

theorem checkout_card_refinement_witness :
    checkoutAccepts (fun s => s.toList.contains '@')
        ⟨"Ada Lovelace", "ada@example.com", "0123456789", "1 Main St",
          "London", "12345", "UK", "card", some "Ada Lovelace",
          some "4111111111111111", some "12/30", some "123"⟩ = true ∧
    (⟨"Ada Lovelace", "ada@example.com", "0123456789", "1 Main St",
        "London", "12345", "UK", "paypal", none, none, none,
        none⟩ : CheckoutInput).paymentMethod ≠ "card" ∧
    (((⟨"Ada Lovelace", "ada@example.com", "0123456789", "1 Main St",
          "London", "12345", "UK", "card", some "Ada Lovelace",
          some "4111111111111111", some "12/30",
          some "123"⟩ : CheckoutInput).paymentMethod = "card" →
        truthy (some "Ada Lovelace") = true ∧
          truthy (some "4111111111111111") = true ∧
          truthy (some "12/30") = true ∧ truthy (some "123") = true) ∧
      cardDetailsOk
          ⟨"Ada Lovelace", "ada@example.com", "0123456789", "1 Main St",
            "London", "12345", "UK", "paypal", none, none, none, none⟩ =
        true) :=
  ⟨by decide, by decide,
    checkout_card_refinement (fun s => s.toList.contains '@') _ _ (by decide) (by decide)⟩
